import Mathlib

/-!
Verification development for the tekcap tool (src/main.c): a shallow
embedding of `main` — configuration validation, port open/configure, the
input-flush loop, the identify (`+ver`) query, output-file opening, the
command writes, and the timeout-driven streaming receive loop — together
with theorems settling the specification's claims about it.

External effects (Windows API call results, serial reads, tick counts) are
supplied by an explicit environment; the embedding mirrors the control flow
of `main` branch by branch.
-/

namespace Tekcap

/-- Retry budget of the streaming loop: `#define MAX_TIMEOUTS 1` (src/main.c line 29). -/
def MAX_TIMEOUTS : Nat := 1

/-- Size in bytes of the global read buffer: `char strBuf[1024]` (src/main.c line 39).
Every `ReadFile` call passes `sizeof(strBuf)` as the byte count to read, so a read
delivers at most this many bytes. Valid indices of the buffer are `0 .. strBufSize - 1`. -/
def strBufSize : Nat := 1024

/-- Liveness window in milliseconds: the streaming loop kicks the adapter with a
`+read` retry when `GetTickCount() - lastTicks > 1000` (src/main.c line 221). -/
def LIVENESS_MS : Nat := 1000

/-- Bytes are modelled as natural numbers; only their count and order matter here. -/
abbrev Byte := Nat

/-- Failure exit sites of `main`: each constructor is one `return n` / `err = n; goto mainOut`
statement in src/main.c. Note that two distinct sites (the address/mode/trigger command
write at lines 206-209 and the initial `+read` request write at lines 212-215) both
assign code 8. -/
inductive FailSite where
  | missingFilename
  | addrRange
  | baudRange
  | portOpen
  | portConfig
  | flushRead
  | identify
  | outputOpen
  | addrCmdWrite
  | readCmdWrite
  | dataRead
  | outputWrite
  | retryWrite
deriving DecidableEq, Fintype

/-- Exit code assigned at each failure site, transcribed from the `return` / `err =`
statements of src/main.c (lines 95, 99, 103, 119, 163, 173, 181, 202, 208, 214, 226, 235, 241). -/
def siteExitCode : FailSite → Nat
  | .missingFilename => 1
  | .addrRange => 2
  | .baudRange => 3
  | .portOpen => 4
  | .portConfig => 5
  | .flushRead => 12
  | .identify => 6
  | .outputOpen => 7
  | .addrCmdWrite => 8
  | .readCmdWrite => 8
  | .dataRead => 9
  | .outputWrite => 10
  | .retryWrite => 11

/-- Failure kinds named by the specification's exit-code table (§6). -/
inductive FailKind where
  | missingFilename
  | addrRange
  | baudRange
  | portOpen
  | portConfig
  | flushRead
  | identify
  | outputOpen
  | cmdWrite
  | dataRead
  | outputWrite
  | retryWrite
deriving DecidableEq, Fintype

/-- Modelled from the spec: the exit-code table of §6, one distinct small positive
integer per failure kind (spec-side definition, for comparison with `siteExitCode`). -/
def specKindCode : FailKind → Nat
  | .missingFilename => 1
  | .addrRange => 2
  | .baudRange => 3
  | .portOpen => 4
  | .portConfig => 5
  | .flushRead => 12
  | .identify => 6
  | .outputOpen => 7
  | .cmdWrite => 8
  | .dataRead => 9
  | .outputWrite => 10
  | .retryWrite => 11

/-- Failure kind of each failure site: both command-write sites are of the
command-write kind, every other site is its own kind. -/
def siteKind : FailSite → FailKind
  | .missingFilename => .missingFilename
  | .addrRange => .addrRange
  | .baudRange => .baudRange
  | .portOpen => .portOpen
  | .portConfig => .portConfig
  | .flushRead => .flushRead
  | .identify => .identify
  | .outputOpen => .outputOpen
  | .addrCmdWrite => .cmdWrite
  | .readCmdWrite => .cmdWrite
  | .dataRead => .dataRead
  | .outputWrite => .outputWrite
  | .retryWrite => .retryWrite

/-- Failures that can occur inside the streaming loop (lines 220-251). -/
inductive LoopFail where
  | dataRead
  | outputWrite
  | retryWrite
deriving DecidableEq, Fintype

/-- Failure site of a streaming-loop failure. -/
def LoopFail.site : LoopFail → FailSite
  | .dataRead => .dataRead
  | .outputWrite => .outputWrite
  | .retryWrite => .retryWrite

/-- Mutable state of the streaming loop: the consecutive-timeout counter `timeout`,
the progress accumulator `bytesTilDot`, and the idle-clock origin `lastTicks`
(src/main.c lines 217-219). -/
structure LoopState where
  timeout : Nat
  bytesTilDot : Nat
  lastTicks : Nat
deriving DecidableEq

/-- External inputs consumed by one iteration of the streaming loop:
`nowTop` is `GetTickCount()` at the top of the iteration (line 221), `retryWriteOk`
the result of the retry `WriteFile` (line 224), `nowRetry` is `GetTickCount()` after a
retry (line 229), `readResult` the outcome of `ReadFile` (line 233, `none` = the call
failed, `some bs` = success with bytes `bs`), `outWriteOk` the result of the output
`WriteFile` (line 239), and `nowData` is `GetTickCount()` after data arrived (line 248). -/
structure IterIn where
  nowTop : Nat
  retryWriteOk : Bool
  nowRetry : Nat
  readResult : Option (List Byte)
  outWriteOk : Bool
  nowData : Nat
deriving DecidableEq

/-- Observable events of one loop iteration: retry markers emitted (`:`), progress
markers emitted (`.`), bytes appended to the output file, and the read results the
transport returned. -/
structure StepTr where
  retries : Nat
  dots : Nat
  written : List Byte
  readTaken : List (List Byte)
deriving DecidableEq

/-- Result of one loop iteration: continue (the `while` condition held), leave the
loop normally (DONE), or fail at a loop failure site. -/
inductive StepRes where
  | cont (s : LoopState)
  | done (s : LoopState)
  | fail (f : LoopFail) (s : LoopState)
deriving DecidableEq

/-- Read-and-append phase of a loop iteration (src/main.c lines 233-251), entered
after `r` retry markers were emitted at the top of the iteration. A successful read
delivers at most `strBufSize` bytes (the buffer size passed to `ReadFile`). On data,
`timeout` is cleared, the bytes are appended, `bytesTilDot` accumulates and emits a
dot when it exceeds `strBufSize` (keeping the remainder), and `lastTicks` is reset.
The iteration ends with the `while (timeout < MAX_TIMEOUTS)` test. -/
def loopRead (i : IterIn) (s : LoopState) (r : Nat) : StepRes × StepTr :=
  match i.readResult with
  | none => (.fail .dataRead s, ⟨r, 0, [], []⟩)
  | some bs0 =>
    let bs := bs0.take strBufSize
    if bs.isEmpty then
      (if s.timeout < MAX_TIMEOUTS then .cont s else .done s, ⟨r, 0, [], [bs]⟩)
    else if i.outWriteOk then
      let btd := s.bytesTilDot + bs.length
      let dot : Nat := if btd > strBufSize then 1 else 0
      let btd2 := if btd > strBufSize then btd - strBufSize else btd
      let s2 : LoopState := ⟨0, btd2, i.nowData⟩
      (if s2.timeout < MAX_TIMEOUTS then .cont s2 else .done s2, ⟨r, dot, bs, [bs]⟩)
    else
      (.fail .outputWrite ⟨0, s.bytesTilDot, s.lastTicks⟩, ⟨r, 0, [], [bs]⟩)

/-- One full iteration of the streaming do-while loop (src/main.c lines 220-251):
if more than `LIVENESS_MS` ticks elapsed since `lastTicks`, write a `+read` retry
(failure exits with the retry-write code), increment `timeout`, reset `lastTicks`
and emit a `:` marker; then perform the read-and-append phase. -/
def loopStep (i : IterIn) (s : LoopState) : StepRes × StepTr :=
  if i.nowTop - s.lastTicks > LIVENESS_MS then
    if i.retryWriteOk then
      loopRead i ⟨s.timeout + 1, s.bytesTilDot, i.nowRetry⟩ 1
    else
      (.fail .retryWrite s, ⟨0, 0, [], []⟩)
  else
    loopRead i s 0

/-- Accumulated outcome of running the streaming loop: the failure (if any), whether
the loop reached its exit within the supplied inputs, the bytes written to the output
file in order, the read results returned by the transport in order, the retry and
progress markers emitted, and the final loop state. -/
structure LoopOut where
  fail : Option LoopFail
  finished : Bool
  outBytes : List Byte
  reads : List (List Byte)
  retries : Nat
  dots : Nat
  final : LoopState
deriving DecidableEq

/-- Run the streaming loop over a list of per-iteration external inputs. An empty
list means the environment supplied no further inputs while the loop would have
continued (`finished = false`). -/
def loopRun : List IterIn → LoopState → LoopOut
  | [], s => ⟨none, false, [], [], 0, 0, s⟩
  | i :: rest, s =>
    match loopStep i s with
    | (.fail f s2, t) => ⟨some f, true, t.written, t.readTaken, t.retries, t.dots, s2⟩
    | (.done s2, t) => ⟨none, true, t.written, t.readTaken, t.retries, t.dots, s2⟩
    | (.cont s2, t) =>
      let o := loopRun rest s2
      ⟨o.fail, o.finished, t.written ++ o.outBytes, t.readTaken ++ o.reads,
        t.retries + o.retries, t.dots + o.dots, o.final⟩

/-- Outcome of the input-flush loop: drained (a read returned zero bytes), a
`ReadFile` call failed, or the supplied inputs ran out while the loop would continue. -/
inductive FlushRes where
  | drained
  | ioFail
  | outOfInputs
deriving DecidableEq

/-- Input-flush loop (src/main.c lines 169-175): repeatedly read into the buffer,
failing with the flush-read site on a failed call, until a read returns zero bytes.
Returns the outcome and the number of `ReadFile` calls performed. -/
def flushLoop : List (Option (List Byte)) → FlushRes × Nat
  | [] => (.outOfInputs, 0)
  | none :: _ => (.ioFail, 1)
  | some bs :: rest =>
    if (bs.take strBufSize).isEmpty then (.drained, 1)
    else
      let o := flushLoop rest
      (o.1, o.2 + 1)

/-- Environment of one run of `main`: results of the Windows API calls and the serial
reads, in program order. `flushReads` feeds the flush loop, `verRead` the identify
reply read, `startTicks` is `GetTickCount()` at line 217, and `loopIns` feeds the
streaming loop. -/
structure Env where
  portOpenOk : Bool
  setCommStateOk : Bool
  setCommTimeoutsOk : Bool
  setupCommOk : Bool
  initWriteOk : Bool
  flushReads : List (Option (List Byte))
  verWriteOk : Bool
  verRead : Option (List Byte)
  outputOpenOk : Bool
  addrCmdWriteOk : Bool
  readCmdWriteOk : Bool
  startTicks : Nat
  loopIns : List IterIn
deriving DecidableEq

/-- Observable outcome of a run of `main`: the process exit code, whether the serial
port open and the output-file open were attempted, whether the teardown terminator
write happened, the index at which the identify reply was NUL-terminated
(`strBuf[numBytes] = 0`, line 183), the bytes written to the output file, the read
results consumed by the streaming loop, the retry and progress markers, the final
progress remainder, the failure site (if any), and whether the modelled environment
supplied enough inputs to reach an exit. -/
structure MainOut where
  exit : Nat
  portOpenTried : Bool
  outputOpenTried : Bool
  terminatorSent : Bool
  verNulIndex : Option Nat
  outBytes : List Byte
  reads : List (List Byte)
  retries : Nat
  dots : Nat
  btdFinal : Nat
  failSite : Option FailSite
  finished : Bool
deriving DecidableEq

/-- Outcome of a run that stops at failure site `s` before the port was opened. -/
def failOut (s : FailSite) : MainOut :=
  ⟨siteExitCode s, false, false, false, none, [], [], 0, 0, 0, some s, true⟩

/-- Streaming phase of `main` (src/main.c lines 217-256): run the receive loop with
`timeout = 0`, `bytesTilDot = 0`, `lastTicks = GetTickCount()`; on loop failure exit
with that site's code; on normal loop exit write the terminator `\r` (result ignored,
line 253) and exit 0. `nul` is the NUL index recorded by the identify phase. -/
def runTransfer (nul : Nat) (env : Env) : MainOut :=
  let lo := loopRun env.loopIns ⟨0, 0, env.startTicks⟩
  match lo.fail, lo.finished with
  | some f, _ =>
    ⟨siteExitCode f.site, true, true, false, some nul, lo.outBytes, lo.reads,
      lo.retries, lo.dots, lo.final.bytesTilDot, some f.site, true⟩
  | none, false =>
    ⟨0, true, true, false, some nul, lo.outBytes, lo.reads,
      lo.retries, lo.dots, lo.final.bytesTilDot, none, false⟩
  | none, true =>
    ⟨0, true, true, true, some nul, lo.outBytes, lo.reads,
      lo.retries, lo.dots, lo.final.bytesTilDot, none, true⟩

/-- Index at which the identify reply is NUL-terminated (`strBuf[numBytes] = 0`,
src/main.c line 183): the number of bytes the `ReadFile` call at line 178 delivered,
which is the reply's length capped at the `sizeof(strBuf)` bytes requested. -/
def verNul (env : Env) : Nat := ((env.verRead.getD []).take strBufSize).length

/-- Identify phase and onwards (src/main.c lines 176-215). The accumulated success
flag is the conjunction of the flush-probe write (line 167), the `+ver` write
(line 176) and the identify `ReadFile` call (line 178): `err = err && ...`; a
successful read of zero bytes is a success. On success the reply (at most
`strBufSize` bytes) is NUL-terminated at index `numBytes`, then the output file is
opened, then the address/mode/trigger command and the first `+read` request are
written, then the streaming loop runs. -/
def afterFlush (env : Env) : MainOut :=
  if ¬ (env.initWriteOk ∧ env.verWriteOk ∧ env.verRead.isSome) then
    { failOut .identify with portOpenTried := true }
  else if ¬ env.outputOpenOk then
    { failOut .outputOpen with
        portOpenTried := true
        outputOpenTried := true
        verNulIndex := some (verNul env) }
  else if ¬ env.addrCmdWriteOk then
    { failOut .addrCmdWrite with
        portOpenTried := true
        outputOpenTried := true
        verNulIndex := some (verNul env) }
  else if ¬ env.readCmdWriteOk then
    { failOut .readCmdWrite with
        portOpenTried := true
        outputOpenTried := true
        verNulIndex := some (verNul env) }
  else runTransfer (verNul env) env

/-- Port open, port configuration and input flush (src/main.c lines 109-175), then
the identify phase and onwards. Configuration succeeds only if `SetCommState`,
`SetCommTimeouts` and `SetupComm` all succeed (`err = err && ...`, lines 150-160). -/
def afterValidate (env : Env) : MainOut :=
  if ¬ env.portOpenOk then { failOut .portOpen with portOpenTried := true }
  else if ¬ (env.setCommStateOk ∧ env.setCommTimeoutsOk ∧ env.setupCommOk) then
    { failOut .portConfig with portOpenTried := true }
  else
    match (flushLoop env.flushReads).1 with
    | .ioFail => { failOut .flushRead with portOpenTried := true }
    | .outOfInputs => ⟨0, true, false, false, none, [], [], 0, 0, 0, none, false⟩
    | .drained => afterFlush env

/-- Shallow embedding of `main` (src/main.c lines 44-285): the filename presence
check (line 93, exit 1), the address range check `address > 30 || address < 0`
(line 97, exit 2), the baud range check `baud < 0 || baud > 6000000` (line 101,
exit 3), then port open and the rest. Validation failures happen before any I/O. -/
def tekcapMain (hasFilename : Bool) (address baud : Int) (env : Env) : MainOut :=
  if ¬ hasFilename then failOut .missingFilename
  else if address > 30 ∨ address < 0 then failOut .addrRange
  else if baud < 0 ∨ baud > 6000000 then failOut .baudRange
  else afterValidate env

/-- Environment of a fully successful run: every call succeeds, the flush loop
drains immediately, the identify reply is one byte, and the streaming loop sees one
silent iteration whose liveness kick ends the transfer. -/
def okEnv : Env where
  portOpenOk := true
  setCommStateOk := true
  setCommTimeoutsOk := true
  setupCommOk := true
  initWriteOk := true
  flushReads := [some []]
  verWriteOk := true
  verRead := some [86]
  outputOpenOk := true
  addrCmdWriteOk := true
  readCmdWriteOk := true
  startTicks := 0
  loopIns := [⟨1500, true, 1500, some [], true, 0⟩]

/-- Environment of end-to-end scenario A: a non-empty identify reply, then three
data chunks of 512, 512 and 10 bytes, then permanent silence (one iteration whose
liveness kick is answered by a zero-byte read). -/
def envScenarioA : Env :=
  { okEnv with loopIns :=
    [⟨0, true, 0, some (List.replicate 512 65), true, 0⟩,
     ⟨0, true, 0, some (List.replicate 512 66), true, 0⟩,
     ⟨0, true, 0, some (List.replicate 10 67), true, 0⟩,
     ⟨1500, true, 1500, some [], true, 0⟩] }

/-- Environment in which the identify reply fills the whole read buffer: the
`ReadFile` call at line 178 is passed `sizeof(strBuf)` bytes to read, so a reply of
`strBufSize` bytes is accepted and reported in `numBytes`. -/
def envFullReply : Env := { okEnv with verRead := some (List.replicate strBufSize 0) }

/-- Arguments (filename present, address, baud, environment) that drive the run into
each failure site, all else succeeding. -/
def siteArgs : FailSite → Bool × Int × Int × Env
  | .missingFilename => (false, 1, 230400, okEnv)
  | .addrRange => (true, 31, 230400, okEnv)
  | .baudRange => (true, 1, 7000000, okEnv)
  | .portOpen => (true, 1, 230400, { okEnv with portOpenOk := false })
  | .portConfig => (true, 1, 230400, { okEnv with setCommStateOk := false })
  | .flushRead => (true, 1, 230400, { okEnv with flushReads := [none] })
  | .identify => (true, 1, 230400, { okEnv with verRead := none })
  | .outputOpen => (true, 1, 230400, { okEnv with outputOpenOk := false })
  | .addrCmdWrite => (true, 1, 230400, { okEnv with addrCmdWriteOk := false })
  | .readCmdWrite => (true, 1, 230400, { okEnv with readCmdWriteOk := false })
  | .dataRead => (true, 1, 230400, { okEnv with loopIns := [⟨0, true, 0, none, true, 0⟩] })
  | .outputWrite => (true, 1, 230400, { okEnv with loopIns := [⟨0, true, 0, some [1], false, 0⟩] })
  | .retryWrite => (true, 1, 230400, { okEnv with loopIns := [⟨1500, false, 0, some [], true, 0⟩] })

/-- Run of `main` on the arguments that drive it into failure site `s`. -/
def runSite (s : FailSite) : MainOut :=
  (fun p : Bool × Int × Int × Env => tekcapMain p.1 p.2.1 p.2.2.1 p.2.2.2) (siteArgs s)

/-- Streaming-loop inputs for a small byte-fidelity run: one two-byte chunk, then a
silent iteration ending the transfer. -/
def insFidelity : List IterIn :=
  [⟨0, true, 0, some [1, 2], true, 0⟩, ⟨1500, true, 1500, some [], true, 0⟩]

/-- One loop-iteration input that delivers a one-byte read with no liveness kick. -/
def iterData : IterIn := ⟨0, true, 0, some [9], true, 777⟩

/-- Bytes written during one loop iteration equal the concatenation of the read
results the transport returned in that iteration, provided the output write succeeds. -/
theorem loopStep_trace_flatten (i : IterIn) (s : LoopState) (hw : i.outWriteOk = true) :
    (loopStep i s).2.written = (loopStep i s).2.readTaken.flatten := by
  unfold loopStep loopRead
  rcases hr : i.readResult with _ | bs <;>
    by_cases hk : i.nowTop - s.lastTicks > LIVENESS_MS <;>
      simp [hr, hk, hw] <;> split_ifs <;> simp_all [List.isEmpty_iff]

/-- Running the loop on inputs that all read zero bytes, with working retry writes
and a cleared timeout counter: if the loop reaches its exit at all, it exits without
failure, with exactly one retry emitted and no bytes written. -/
theorem loopRun_silent (ins : List IterIn) :
    ∀ s : LoopState, (∀ i ∈ ins, i.readResult = some ([] : List Byte)) →
    (∀ i ∈ ins, i.retryWriteOk = true) → s.timeout = 0 →
    (loopRun ins s).finished = true →
    (loopRun ins s).fail = none ∧ (loopRun ins s).retries = 1 ∧
      (loopRun ins s).outBytes = [] := by
  induction ins with
  | nil => intro s _ _ _ hfin; simp [loopRun] at hfin
  | cons i rest ih =>
    intro s hr hw ht hfin
    have hri : i.readResult = some [] := hr i (List.mem_cons_self i rest)
    have hwi : i.retryWriteOk = true := hw i (List.mem_cons_self i rest)
    by_cases hk : i.nowTop - s.lastTicks > LIVENESS_MS
    · have hstep : loopStep i s =
          (.done ⟨s.timeout + 1, s.bytesTilDot, i.nowRetry⟩, ⟨1, 0, [], [[]]⟩) := by
        simp [loopStep, loopRead, hk, hwi, hri, ht, MAX_TIMEOUTS]
      simp [loopRun, hstep]
    · have hstep : loopStep i s = (.cont s, ⟨0, 0, [], [[]]⟩) := by
        simp [loopStep, loopRead, hk, hri, ht, MAX_TIMEOUTS]
      have hrest : ∀ j ∈ rest, j.readResult = some ([] : List Byte) :=
        fun j hj => hr j (List.mem_cons_of_mem i hj)
      have hwrest : ∀ j ∈ rest, j.retryWriteOk = true :=
        fun j hj => hw j (List.mem_cons_of_mem i hj)
      simp only [loopRun, hstep] at hfin ⊢
      simpa using ih s hrest hwrest ht (by simpa using hfin)

/-- Possible outcomes of the streaming phase: exit 0 on a normal run, else one of the
three loop failure codes; the port and the output file were opened in any case. -/
theorem runTransfer_exits (nul : Nat) (env : Env) :
    (runTransfer nul env).portOpenTried = true ∧
    (runTransfer nul env).outputOpenTried = true ∧
    ((runTransfer nul env).exit = 0 ∨ (runTransfer nul env).exit = 9 ∨
      (runTransfer nul env).exit = 10 ∨ (runTransfer nul env).exit = 11) := by
  unfold runTransfer
  rcases hf : (loopRun env.loopIns ⟨0, 0, env.startTicks⟩).fail with _ | f
  · rcases hfin : (loopRun env.loopIns ⟨0, 0, env.startTicks⟩).finished <;> simp [hf, hfin]
  · cases f <;> simp [hf, LoopFail.site, siteExitCode]

/-- Possible outcomes past the flush phase: the port was opened, and the exit code is
0 or one of the codes of the sites from the identify query onward. -/
theorem afterFlush_exits (env : Env) :
    (afterFlush env).portOpenTried = true ∧
    ((afterFlush env).exit = 0 ∨ (afterFlush env).exit = 6 ∨ (afterFlush env).exit = 7 ∨
      (afterFlush env).exit = 8 ∨ (afterFlush env).exit = 9 ∨ (afterFlush env).exit = 10 ∨
      (afterFlush env).exit = 11) := by
  have h := runTransfer_exits (verNul env) env
  have h1 := h.1
  have h3 := h.2.2
  simp only [afterFlush]
  split_ifs
  all_goals first
    | exact ⟨h1, by omega⟩
    | simp [failOut, siteExitCode]

/-- With the identify phase succeeding, the run never exits with the version-query
failure code 6. -/
theorem afterFlush_ok_ne6 (env : Env) (h1 : env.initWriteOk = true)
    (h2 : env.verWriteOk = true) (h3 : env.verRead.isSome = true) :
    (afterFlush env).exit ≠ 6 := by
  have h := runTransfer_exits (verNul env) env
  have hx := h.2.2
  unfold afterFlush
  rw [if_neg (by simp [h1, h2, h3])]
  split_ifs
  all_goals first
    | omega
    | simp [failOut, siteExitCode]

/-- With the identify phase succeeding, the run always attempts to open the output
file. -/
theorem afterFlush_ok_outputTried (env : Env) (h1 : env.initWriteOk = true)
    (h2 : env.verWriteOk = true) (h3 : env.verRead.isSome = true) :
    (afterFlush env).outputOpenTried = true := by
  have h := runTransfer_exits (verNul env) env
  unfold afterFlush
  rw [if_neg (by simp [h1, h2, h3])]
  split_ifs
  all_goals first
    | exact h.2.1
    | simp [failOut]

/-- With the identify phase failing (a failed flush-probe write, `+ver` write or
identify read call), the run stops at the identify failure site. -/
theorem afterFlush_bad (env : Env)
    (h : ¬ (env.initWriteOk = true ∧ env.verWriteOk = true ∧ env.verRead.isSome = true)) :
    afterFlush env = { failOut FailSite.identify with portOpenTried := true } := by
  unfold afterFlush
  rw [if_pos (by simpa using h)]

/-- Possible outcomes past configuration validation: the port open is attempted, and
the exit code is never a validation code (1, 2 or 3). -/
theorem afterValidate_exits (env : Env) :
    (afterValidate env).portOpenTried = true ∧
    (afterValidate env).exit ≠ 1 ∧ (afterValidate env).exit ≠ 2 ∧
    (afterValidate env).exit ≠ 3 := by
  by_cases hp : env.portOpenOk = true
  · by_cases hc : env.setCommStateOk = true ∧ env.setCommTimeoutsOk = true ∧
      env.setupCommOk = true
    · rcases hfl : (flushLoop env.flushReads).1 with _ | _ | _
      · have heq : afterValidate env = afterFlush env := by
          simp [afterValidate, hp, hc.1, hc.2.1, hc.2.2, hfl]
        rw [heq]
        have h := afterFlush_exits env
        have h3 := h.2
        exact ⟨h.1, by omega, by omega, by omega⟩
      · have heq : afterValidate env = { failOut .flushRead with portOpenTried := true } := by
          simp [afterValidate, hp, hc.1, hc.2.1, hc.2.2, hfl]
        rw [heq]; simp [failOut, siteExitCode]
      · have heq : afterValidate env =
            ⟨0, true, false, false, none, [], [], 0, 0, 0, none, false⟩ := by
          simp [afterValidate, hp, hc.1, hc.2.1, hc.2.2, hfl]
        rw [heq]; simp
    · have heq : afterValidate env = { failOut .portConfig with portOpenTried := true } := by
        simp [afterValidate, hp, hc]
      rw [heq]; simp [failOut, siteExitCode]
  · have heq : afterValidate env = { failOut .portOpen with portOpenTried := true } := by
      simp [afterValidate, hp]
    rw [heq]; simp [failOut, siteExitCode]

/-- With a filename, valid address and baud, a successful port open and
configuration, and a drained flush loop, the run is the identify phase onwards. -/
theorem tekcap_run_eq_afterFlush (a b : Int) (env : Env)
    (ha : ¬ (a > 30 ∨ a < 0)) (hb : ¬ (b < 0 ∨ b > 6000000))
    (hport : env.portOpenOk = true)
    (hc1 : env.setCommStateOk = true) (hc2 : env.setCommTimeoutsOk = true)
    (hc3 : env.setupCommOk = true)
    (hfl : (flushLoop env.flushReads).1 = FlushRes.drained) :
    tekcapMain true a b env = afterFlush env := by
  simp [tekcapMain, afterValidate, ha, hb, hport, hc1, hc2, hc3, hfl]

/-- With every call up to the first read request succeeding, the run is the
streaming phase applied to the identify reply's NUL index. -/
theorem tekcap_run_eq_transfer (a b : Int) (env : Env)
    (ha : ¬ (a > 30 ∨ a < 0)) (hb : ¬ (b < 0 ∨ b > 6000000))
    (hport : env.portOpenOk = true)
    (hc1 : env.setCommStateOk = true) (hc2 : env.setCommTimeoutsOk = true)
    (hc3 : env.setupCommOk = true)
    (hfl : (flushLoop env.flushReads).1 = FlushRes.drained)
    (hiw : env.initWriteOk = true) (hvw : env.verWriteOk = true)
    (hvr : env.verRead.isSome = true)
    (hoo : env.outputOpenOk = true) (hac : env.addrCmdWriteOk = true)
    (hrc : env.readCmdWriteOk = true) :
    tekcapMain true a b env = runTransfer (verNul env) env := by
  rw [tekcap_run_eq_afterFlush a b env ha hb hport hc1 hc2 hc3 hfl]
  simp [afterFlush, hiw, hvw, hvr, hoo, hac, hrc]

/-- Claim C1: for any sequence of read results returned by the transport during the
streaming loop, the content written to the output file equals their concatenation in
order, byte for byte — no duplication, loss or reordering — provided the output
writes succeed. Empty read results contribute nothing to either side. -/
theorem loop_byte_fidelity (ins : List IterIn) (s : LoopState)
    (hw : ∀ i ∈ ins, i.outWriteOk = true) :
    (loopRun ins s).outBytes = (loopRun ins s).reads.flatten := by
  induction ins generalizing s with
  | nil => simp [loopRun]
  | cons i rest ih =>
    have hwi : i.outWriteOk = true := hw i (List.mem_cons_self i rest)
    have hwr : ∀ j ∈ rest, j.outWriteOk = true :=
      fun j hj => hw j (List.mem_cons_of_mem i hj)
    have htr := loopStep_trace_flatten i s hwi
    rcases hstep : loopStep i s with ⟨res, t⟩
    rw [hstep] at htr
    replace htr : t.written = t.readTaken.flatten := htr
    rcases res with s2 | s2 | ⟨f, s2⟩ <;>
      simp only [loopRun, hstep] <;>
      simp [htr, ih s2 hwr, List.flatten_append]

/-- Witness for C1: a concrete two-iteration run. -/
theorem loop_byte_fidelity_witness :
    (loopRun insFidelity ⟨0, 0, 0⟩).outBytes = (loopRun insFidelity ⟨0, 0, 0⟩).reads.flatten :=
  loop_byte_fidelity insFidelity ⟨0, 0, 0⟩ (by decide)

/-- Claim C2: if every read in the streaming loop returns zero bytes from the start
(and the run reaches the loop and the loop reaches its exit), the engine issues
exactly MAX_TIMEOUTS = 1 in-loop retry request, terminates the loop as DONE, sends
the terminator and exits with code 0, writing nothing. -/
theorem silent_transfer_done (a b : Int) (env : Env)
    (ha : ¬ (a > 30 ∨ a < 0)) (hb : ¬ (b < 0 ∨ b > 6000000))
    (hport : env.portOpenOk = true)
    (hc1 : env.setCommStateOk = true) (hc2 : env.setCommTimeoutsOk = true)
    (hc3 : env.setupCommOk = true)
    (hfl : (flushLoop env.flushReads).1 = FlushRes.drained)
    (hiw : env.initWriteOk = true) (hvw : env.verWriteOk = true)
    (hvr : env.verRead.isSome = true)
    (hoo : env.outputOpenOk = true) (hac : env.addrCmdWriteOk = true)
    (hrc : env.readCmdWriteOk = true)
    (hr : ∀ i ∈ env.loopIns, i.readResult = some ([] : List Byte))
    (hw : ∀ i ∈ env.loopIns, i.retryWriteOk = true)
    (hfin : (loopRun env.loopIns ⟨0, 0, env.startTicks⟩).finished = true) :
    (tekcapMain true a b env).exit = 0 ∧
    (tekcapMain true a b env).retries = MAX_TIMEOUTS ∧
    (tekcapMain true a b env).terminatorSent = true ∧
    (tekcapMain true a b env).outBytes = [] := by
  rw [tekcap_run_eq_transfer a b env ha hb hport hc1 hc2 hc3 hfl hiw hvw hvr hoo hac hrc]
  have h := loopRun_silent env.loopIns ⟨0, 0, env.startTicks⟩ hr hw rfl hfin
  simp [runTransfer, h.1, h.2.1, h.2.2, hfin, MAX_TIMEOUTS]

/-- Witness for C2: the all-silent environment `okEnv`. -/
theorem silent_transfer_done_witness :
    (tekcapMain true 1 230400 okEnv).exit = 0 ∧
    (tekcapMain true 1 230400 okEnv).retries = MAX_TIMEOUTS ∧
    (tekcapMain true 1 230400 okEnv).terminatorSent = true ∧
    (tekcapMain true 1 230400 okEnv).outBytes = [] :=
  silent_transfer_done 1 230400 okEnv (by decide) (by decide) rfl rfl rfl rfl
    (by decide) rfl rfl rfl rfl rfl rfl (by decide) (by decide) (by decide)

/-- Counterexample to claim C3: baud = 0 lies outside the range (0, 6000000] the
claim gives, yet the program does not reject it with exit code 3 — the check at
line 101 is `baud < 0 || baud > 6000000`, so baud 0 passes validation, the port open
is attempted (I/O occurs), and with a failing port open the exit code is 4. -/
theorem baud_zero_not_rejected :
    (tekcapMain true 1 0 { okEnv with portOpenOk := false }).exit = 4 ∧
    (tekcapMain true 1 0 { okEnv with portOpenOk := false }).portOpenTried = true := by
  decide

/-- Claim C3 (amended): validation accepts address in [0, 30] and baud in
[0, 6000000] — note the lower baud bound is 0 inclusive, not exclusive — and the
program proceeds to open the port; an address outside [0, 30] exits with code 2
before any I/O, and otherwise a baud outside [0, 6000000] exits with code 3 before
any I/O (address is checked first). -/
theorem validation_ranges (a b : Int) (env : Env) :
    ((a > 30 ∨ a < 0) → tekcapMain true a b env = failOut FailSite.addrRange) ∧
    (¬ (a > 30 ∨ a < 0) → (b < 0 ∨ b > 6000000) →
      tekcapMain true a b env = failOut FailSite.baudRange) ∧
    (¬ (a > 30 ∨ a < 0) → ¬ (b < 0 ∨ b > 6000000) →
      (tekcapMain true a b env).portOpenTried = true ∧
      (tekcapMain true a b env).exit ≠ 2 ∧ (tekcapMain true a b env).exit ≠ 3) := by
  refine ⟨fun ha => by simp [tekcapMain, ha], fun ha hb => by simp [tekcapMain, ha, hb],
    fun ha hb => ?_⟩
  have heq : tekcapMain true a b env = afterValidate env := by simp [tekcapMain, ha, hb]
  rw [heq]
  have h := afterValidate_exits env
  exact ⟨h.1, h.2.2.1, h.2.2.2⟩

/-- Witness for the amended C3: address 31 is rejected with code 2 before any I/O,
and baud 0 with a valid address proceeds to the port open. -/
theorem validation_ranges_witness :
    tekcapMain true 31 230400 okEnv = failOut FailSite.addrRange ∧
    (tekcapMain true 1 0 okEnv).portOpenTried = true ∧
    (tekcapMain true 1 0 okEnv).exit ≠ 2 ∧ (tekcapMain true 1 0 okEnv).exit ≠ 3 :=
  ⟨(validation_ranges 31 230400 okEnv).1 (by decide),
   (validation_ranges 1 0 okEnv).2.2 (by decide) (by decide)⟩

/-- Counterexample to claim C4: an identify read that succeeds but returns zero
bytes does not exit with code 6 — `ReadFile` reporting zero bytes is a success, so
the run proceeds to open the output file and, with the rest succeeding, exits 0. -/
theorem zero_byte_identify_proceeds :
    (tekcapMain true 1 230400 { okEnv with verRead := some [] }).exit ≠ 6 ∧
    (tekcapMain true 1 230400 { okEnv with verRead := some [] }).exit = 0 ∧
    (tekcapMain true 1 230400 { okEnv with verRead := some [] }).outputOpenTried = true := by
  decide

/-- Claim C4 (amended): once the run reaches the identify phase, it exits with the
version-query failure code 6 exactly when one of the identify phase's calls fails —
the flush-probe write, the `+ver` write, or the identify `ReadFile` call itself; a
read that succeeds with zero bytes is accepted and the run proceeds to the transfer
(the output-file open is attempted). -/
theorem identify_failure_code (a b : Int) (env : Env)
    (ha : ¬ (a > 30 ∨ a < 0)) (hb : ¬ (b < 0 ∨ b > 6000000))
    (hport : env.portOpenOk = true)
    (hc1 : env.setCommStateOk = true) (hc2 : env.setCommTimeoutsOk = true)
    (hc3 : env.setupCommOk = true)
    (hfl : (flushLoop env.flushReads).1 = FlushRes.drained) :
    ((tekcapMain true a b env).exit = 6 ↔
      ¬ (env.initWriteOk = true ∧ env.verWriteOk = true ∧ env.verRead.isSome = true)) ∧
    (env.verRead = some [] → env.initWriteOk = true → env.verWriteOk = true →
      (tekcapMain true a b env).outputOpenTried = true) := by
  rw [tekcap_run_eq_afterFlush a b env ha hb hport hc1 hc2 hc3 hfl]
  constructor
  · by_cases hok : env.initWriteOk = true ∧ env.verWriteOk = true ∧ env.verRead.isSome = true
    · exact iff_of_false (afterFlush_ok_ne6 env hok.1 hok.2.1 hok.2.2) (not_not_intro hok)
    · rw [afterFlush_bad env hok]
      exact iff_of_true rfl hok
  · intro hv hiw hvw
    exact afterFlush_ok_outputTried env hiw hvw (by rw [hv]; rfl)

/-- Witness for the amended C4: with a failing identify read the exit code is 6, and
with a zero-byte identify reply the output-file open is attempted. -/
theorem identify_failure_code_witness :
    (tekcapMain true 1 230400 { okEnv with verRead := none }).exit = 6 ∧
    (tekcapMain true 1 230400 { okEnv with verRead := some [] }).outputOpenTried = true :=
  ⟨(identify_failure_code 1 230400 { okEnv with verRead := none } (by decide) (by decide)
      rfl rfl rfl rfl (by decide)).1.mpr (by decide),
   (identify_failure_code 1 230400 { okEnv with verRead := some [] } (by decide) (by decide)
      rfl rfl rfl rfl (by decide)).2 rfl rfl rfl⟩

set_option maxRecDepth 100000 in
/-- Claim C5: end-to-end scenario A — address 1, baud 230400, non-empty identify
reply, data chunks of 512, 512 and 10 bytes, then permanent silence: exit code 0,
exactly 1034 bytes written, exactly one progress marker (the running count exceeds
the 1024-byte threshold once, at 1034), and the remainder 10 is preserved in the
running count after the marker. -/
theorem scenario_A :
    (tekcapMain true 1 230400 envScenarioA).exit = 0 ∧
    (tekcapMain true 1 230400 envScenarioA).outBytes.length = 1034 ∧
    (tekcapMain true 1 230400 envScenarioA).dots = 1 ∧
    (tekcapMain true 1 230400 envScenarioA).btdFinal = 10 := by
  decide

/-- Claim C6: in each iteration of the streaming loop at most one retry request is
issued; a retry is issued only when the observed silence exceeds the liveness
window; and whenever the read returns more than zero bytes (and the output write
succeeds), the consecutive-retry counter and the idle-time clock are both reset. -/
theorem step_retry_budget_and_reset (i : IterIn) (s : LoopState) :
    (loopStep i s).2.retries ≤ 1 ∧
    ((loopStep i s).2.retries = 1 → i.nowTop - s.lastTicks > LIVENESS_MS) ∧
    (∀ bs, i.readResult = some bs → bs ≠ [] → i.outWriteOk = true →
      i.retryWriteOk = true →
      ∃ s2, (loopStep i s).1 = StepRes.cont s2 ∧ s2.timeout = 0 ∧
        s2.lastTicks = i.nowData) := by
  refine ⟨?_, ?_, ?_⟩
  · rcases hr : i.readResult with _ | bs <;>
      simp only [loopStep, loopRead, hr] <;>
      split_ifs <;> simp
  · rcases hr : i.readResult with _ | bs <;>
      simp only [loopStep, loopRead, hr] <;>
      split_ifs <;> simp_all
  · intro bs hbs hne hwo hrw
    have hemp : (bs.take strBufSize).isEmpty = false := by
      simp [List.isEmpty_iff, List.take_eq_nil_iff, hne, strBufSize]
    by_cases hk : i.nowTop - s.lastTicks > LIVENESS_MS <;>
      simp [loopStep, loopRead, hbs, hemp, hwo, hrw, hk, MAX_TIMEOUTS]

/-- Witness for C6: a concrete data-bearing iteration. -/
theorem step_retry_budget_and_reset_witness :
    (loopStep iterData ⟨0, 0, 0⟩).2.retries ≤ 1 ∧
    (∃ s2, (loopStep iterData ⟨0, 0, 0⟩).1 = StepRes.cont s2 ∧ s2.timeout = 0 ∧
      s2.lastTicks = iterData.nowData) :=
  ⟨(step_retry_budget_and_reset iterData ⟨0, 0, 0⟩).1,
   (step_retry_budget_and_reset iterData ⟨0, 0, 0⟩).2.2 [9] rfl (by decide) rfl rfl⟩

/-- Claim C7: on a transport that yields some non-empty stale chunks and then a
zero-byte read, the flush loop drains them with exactly one read per chunk plus the
final zero-byte read, stops there, and never touches the remaining input (the result
does not depend on `rest`), so no stale bytes remain before the identify query. -/
theorem flush_drains (chunks : List (List Byte)) (rest : List (Option (List Byte)))
    (h : ∀ c ∈ chunks, c ≠ []) :
    flushLoop (chunks.map some ++ some [] :: rest) =
      (FlushRes.drained, chunks.length + 1) := by
  induction chunks with
  | nil => simp [flushLoop, strBufSize]
  | cons c cs ih =>
    have hc : c ≠ [] := h c (List.mem_cons_self c cs)
    have hemp : (c.take strBufSize).isEmpty = false := by
      simp [List.isEmpty_iff, List.take_eq_nil_iff, hc, strBufSize]
    have ihc := ih (fun d hd => h d (List.mem_cons_of_mem c hd))
    simp [flushLoop, hemp, ihc]

/-- Witness for C7: two stale chunks of one and two bytes are drained in three
reads, whatever comes afterwards. -/
theorem flush_drains_witness :
    flushLoop ([[1], [2, 3]].map some ++ some [] :: [none]) = (FlushRes.drained, 3) :=
  flush_drains [[1], [2, 3]] [none] (by decide)

/-- Counterexample to claim C8: the command-write failure kind does not map to
exactly one failure branch — two distinct branches (the address/mode/trigger
command write of lines 206-209 and the initial read-request write of lines 212-215)
both exit with code 8. -/
theorem cmdWrite_two_branches :
    (tekcapMain true 1 230400 { okEnv with addrCmdWriteOk := false }).exit = 8 ∧
    (tekcapMain true 1 230400 { okEnv with addrCmdWriteOk := false }).failSite =
      some FailSite.addrCmdWrite ∧
    (tekcapMain true 1 230400 { okEnv with readCmdWriteOk := false }).exit = 8 ∧
    (tekcapMain true 1 230400 { okEnv with readCmdWriteOk := false }).failSite =
      some FailSite.readCmdWrite ∧
    FailSite.addrCmdWrite ≠ FailSite.readCmdWrite := by
  decide

/-- Claim C8 (amended): each failure kind of the spec's table maps 1:1 to one
distinct small positive exit code (1..12), every failure site returns its own kind's
code and is reachable with exactly that exit code, and every kind corresponds to
exactly one failure site except the command-write kind, which has two sites. -/
theorem exit_code_table :
    (∀ k1 k2 : FailKind, specKindCode k1 = specKindCode k2 → k1 = k2) ∧
    (∀ k : FailKind, 1 ≤ specKindCode k ∧ specKindCode k ≤ 12) ∧
    (∀ s : FailSite, siteExitCode s = specKindCode (siteKind s)) ∧
    (∀ s : FailSite, (runSite s).exit = siteExitCode s ∧ (runSite s).failSite = some s) ∧
    (∀ s t : FailSite, siteKind s = siteKind t →
      s = t ∨ siteKind s = FailKind.cmdWrite) := by
  refine ⟨by decide, by decide, by decide, by decide, by decide⟩

/-- Witness for the amended C8: the injectivity instantiated at two kinds, and the
two-site exception instantiated at the two command-write sites. -/
theorem exit_code_table_witness :
    (FailSite.addrCmdWrite = FailSite.readCmdWrite ∨
      siteKind FailSite.addrCmdWrite = FailKind.cmdWrite) ∧
    FailKind.portOpen = FailKind.portOpen :=
  ⟨exit_code_table.2.2.2.2 FailSite.addrCmdWrite FailSite.readCmdWrite rfl,
   exit_code_table.1 FailKind.portOpen FailKind.portOpen rfl⟩

/-- Claim C9: if opening the serial port fails (with a filename given and a valid
address and baud), the process exits with the port-open failure code 4 and the
output-file open is never attempted, so the output file is never created. -/
theorem portOpen_fail_no_output (a b : Int) (env : Env)
    (ha : ¬ (a > 30 ∨ a < 0)) (hb : ¬ (b < 0 ∨ b > 6000000))
    (hport : env.portOpenOk = false) :
    (tekcapMain true a b env).exit = 4 ∧
    (tekcapMain true a b env).outputOpenTried = false := by
  simp [tekcapMain, afterValidate, ha, hb, hport, failOut, siteExitCode]

/-- Witness for C9: a concrete run with a failing port open. -/
theorem portOpen_fail_no_output_witness :
    (tekcapMain true 1 230400 { okEnv with portOpenOk := false }).exit = 4 ∧
    (tekcapMain true 1 230400 { okEnv with portOpenOk := false }).outputOpenTried = false :=
  portOpen_fail_no_output 1 230400 { okEnv with portOpenOk := false }
    (by decide) (by decide) rfl

set_option maxRecDepth 100000 in
/-- Claim C10 fails on the code: when the identify reply fills the whole read buffer
— which the `ReadFile` call at line 178 permits, since it requests `sizeof(strBuf)`
= 1024 bytes — `numBytes` equals `strBufSize`, so `strBuf[numBytes] = 0` at line 183
writes at index 1024, one past the last valid index `strBufSize - 1` of the
1024-byte buffer: the NUL index is not strictly less than the buffer size. -/
theorem nul_index_out_of_bounds :
    (tekcapMain true 1 230400 envFullReply).verNulIndex = some strBufSize ∧
    ¬ strBufSize < strBufSize := by
  decide

end Tekcap
